import Mathlib

/-!
Verification of the event-to-span correlation engine of `valuestream`
(`eventsources/webhooks/http.go`).

The engine consumes normalized lifecycle events and drives span lifecycle
transitions against two keyed stores (a Span Store keyed by span id and a
Trace Store keyed by trace id), delegating span creation to an opaque
tracer.  We embed the engine shallowly:

* events are records of fallible accessors (`Except String _`), mirroring
  the Go accessor methods `State()`, `SpanID()`, `TraceID()`,
  `ParentSpanID()`, `Tags()`, `IsError()` which each return `(value, error)`;
* the tracer backend is a list of created spans (`TracerWorld`); a span
  reference is an index into that list; `StartSpan`, `SetTag` and `Finish`
  become pure operations on the list;
* each store is an association list together with fault-injection
  functions (`Faults`) that say which store operations fail, matching the
  store interface contract: `Get` returns the stored record or `none` when
  absent, `Set` overwrites, `Delete` removes, and each of them may return
  an error;
* the handlers thread the whole `WebhookState` explicitly and return the
  state reached at the point of return together with an optional error,
  so that partial mutation on the error paths is visible.
-/

set_option autoImplicit false

namespace ValueStream

/-- Lifecycle state of an event: `State ∈ \x7bStart, End, Other\x7d`. -/
inductive EventState where
  | StartState
  | EndState
  | OtherState
  deriving DecidableEq, Repr

/-- A tag value attached to a span (Go `interface\x7b\x7d`; the engine only ever
stores string-like payload tags and the boolean `error` tag). -/
inductive TagValue where
  | str (s : String)
  | bool (b : Bool)
  deriving DecidableEq, Repr

deriving instance DecidableEq for Except

/-- Modelled from the spec: the `eventsources.Event` interface (its
implementations live outside the correlation engine).  Each accessor can
fail independently; `TraceID` and `ParentSpanID` return optional values
(Go `*string`). -/
structure Event where
  State : Except String EventState
  SpanID : Except String String
  TraceID : Except String (Option String)
  ParentSpanID : Except String (Option String)
  OperationName : String
  Tags : Except String (List (String × TagValue))
  IsError : Except String Bool
  deriving DecidableEq

/-- An open span record held by the tracing backend. -/
structure Span where
  op : String
  parent : Option Nat
  tags : List (String × TagValue)
  finished : Bool
  deriving DecidableEq, Repr

/-- The tracer backend's world: every span ever started, in creation
order.  A span reference is an index into this list. -/
abbrev TracerWorld : Type := List Span

/-- Go `tracer.StartSpan(name, opts...)`: create a fresh span (optionally
with a child-of relationship) and return its reference. -/
def startSpan (w : TracerWorld) (op : String) (parent : Option Nat) :
    Nat × TracerWorld :=
  (List.length w, w ++ [{ op := op, parent := parent, tags := [], finished := false }])

/-- Go `span.SetTag(k, v)` on the span referenced by `i`. -/
def setTagW (w : TracerWorld) (i : Nat) (k : String) (v : TagValue) : TracerWorld :=
  match w, i with
  | [], _ => []
  | s :: rest, 0 => { s with tags := s.tags ++ [(k, v)] } :: rest
  | s :: rest, n + 1 => s :: setTagW rest n k v

/-- Go `span.Finish()` on the span referenced by `i`. -/
def finishW (w : TracerWorld) (i : Nat) : TracerWorld :=
  match w, i with
  | [], _ => []
  | s :: rest, 0 => { s with finished := true } :: rest
  | s :: rest, n + 1 => s :: finishW rest n

/-- Association-list lookup backing the stores' `Get`. -/
def storeGet (m : List (String × Nat)) (k : String) : Option Nat :=
  match m with
  | [] => none
  | (k', v) :: rest => if k' = k then some v else storeGet rest k

/-- `Delete`: remove a key; deleting an absent key is a no-op. -/
def storeDelete (m : List (String × Nat)) (k : String) : List (String × Nat) :=
  m.filter (fun p => p.1 != k)

/-- `Set`: store/overwrite the record for a key. -/
def storeSet (m : List (String × Nat)) (k : String) (v : Nat) : List (String × Nat) :=
  (k, v) :: storeDelete m k

/-- Modelled from the spec: the store implementations live outside the
engine; the contract only says each operation may fail.  A `Faults`
record injects, per key, which store operations of the two stores fail
and with what error message.  An operation whose injected fault is
`none` behaves as the keyed-map contract prescribes. -/
structure Faults where
  tracesGetErr : String → Option String
  tracesSetErr : String → Option String
  tracesDelErr : String → Option String
  spansGetErr : String → Option String
  spansSetErr : String → Option String
  spansDelErr : String → Option String

/-- Fault injection that never fails: every store operation succeeds. -/
def noFaults : Faults :=
  ⟨fun _ => none, fun _ => none, fun _ => none,
   fun _ => none, fun _ => none, fun _ => none⟩

/-- The shared mutable state an event handling call can touch: the tracer
world plus the contents of the Trace Store and the Span Store. -/
structure WebhookState where
  world : TracerWorld
  traces : List (String × Nat)
  spans : List (String × Nat)
  deriving DecidableEq

/-- State with no spans started and both stores empty. -/
def emptyState : WebhookState := ⟨[], [], []⟩

/-- Errors surfaced by event handling.  `SpanMissingError` mirrors
`traces.SpanMissingError` raised for an End event with no matching open
span; it carries the offending span identifier.  `Err` is any other
propagated accessor/store error. -/
inductive HandleError where
  | SpanMissingError (spanID : String)
  | Err (msg : String)
  deriving DecidableEq, Repr

/-- Go `handleStartEvent` (http.go:110-168): resolve the optional parent
through the Trace Store, start a span (child-of the parent when one was
found), apply the event's tags, register the span under its `TraceID` in
the Trace Store when one is declared (the error of this `Set` is
discarded by the code), and register it under its `SpanID` in the Span
Store.  Returns the state at the point of return plus an optional
error. -/
def handleStartEvent (f : Faults) (e : Event) (σ : WebhookState) :
    WebhookState × Option HandleError :=
  match e.ParentSpanID with
  | .error m => (σ, some (.Err m))
  | .ok parentID =>
    let parentRes : Except HandleError (Option Nat) :=
      match parentID with
      | none => .ok none
      | some pid =>
        match f.tracesGetErr pid with
        | some m => .error (.Err m)
        | none => .ok (storeGet σ.traces pid)
    match parentRes with
    | .error er => (σ, some er)
    | .ok parentSpan =>
      let ref := List.length σ.world
      let σ₁ : WebhookState :=
        { σ with world := (startSpan σ.world e.OperationName parentSpan).2 }
      match e.Tags with
      | .error m => (σ₁, some (.Err m))
      | .ok tags =>
        let σ₂ : WebhookState :=
          { σ₁ with world := tags.foldl (fun w kv => setTagW w ref kv.1 kv.2) σ₁.world }
        match e.TraceID with
        | .error m => (σ₂, some (.Err m))
        | .ok traceID =>
          let σ₃ : WebhookState :=
            match traceID with
            | none => σ₂
            | some tid =>
              match f.tracesSetErr tid with
              | some _ => σ₂
              | none => { σ₂ with traces := storeSet σ₂.traces tid ref }
          match e.SpanID with
          | .error m => (σ₃, some (.Err m))
          | .ok spanID =>
            match f.spansSetErr spanID with
            | some m => (σ₃, some (.Err m))
            | none => ({ σ₃ with spans := storeSet σ₃.spans spanID ref }, none)

/-- Go `handleEndEvent` (http.go:170-213): look the span up in the Span
Store; if absent fail with the span-missing error; otherwise set the
`error` tag from `IsError`, finish the span, delete its Span Store
entry, and when the event declares a `TraceID` delete that Trace Store
entry too. -/
def handleEndEvent (f : Faults) (e : Event) (σ : WebhookState) :
    WebhookState × Option HandleError :=
  match e.SpanID with
  | .error m => (σ, some (.Err m))
  | .ok spanID =>
    match f.spansGetErr spanID with
    | some m => (σ, some (.Err m))
    | none =>
      match storeGet σ.spans spanID with
      | none => (σ, some (.SpanMissingError spanID))
      | some ref =>
        match e.IsError with
        | .error m => (σ, some (.Err m))
        | .ok isE =>
          let σ₁ : WebhookState :=
            { σ with world := finishW (setTagW σ.world ref "error" (.bool isE)) ref }
          match f.spansDelErr spanID with
          | some m => (σ₁, some (.Err m))
          | none =>
            let σ₂ : WebhookState := { σ₁ with spans := storeDelete σ₁.spans spanID }
            match e.TraceID with
            | .error m => (σ₂, some (.Err m))
            | .ok traceID =>
              match traceID with
              | none => (σ₂, none)
              | some tid =>
                match f.tracesDelErr tid with
                | some m => (σ₂, some (.Err m))
                | none => ({ σ₂ with traces := storeDelete σ₂.traces tid }, none)

/-- Go `handleEvent` (http.go:215-230): dispatch on the event state;
`Start` and `End` run their handlers, anything else is a silent
no-op. -/
def handleEvent (f : Faults) (e : Event) (σ : WebhookState) :
    WebhookState × Option HandleError :=
  match e.State with
  | .error m => (σ, some (.Err m))
  | .ok state =>
    match state with
    | .StartState => handleStartEvent f e σ
    | .EndState => handleEndEvent f e σ
    | .OtherState => (σ, none)

/-- Result of Go `r.Context().Value(CtxSecretTokenKey)` followed by the
`[]byte` type assertion: `none` when the context value is absent or not
a `[]byte`, `some none` when it is a nil `[]byte`, `some (some v)` when
it is a non-nil `[]byte` `v`. -/
structure Request where
  ctxSecret : Option (Option (List Nat))
  deriving DecidableEq

/-- The webhook configuration relevant to secret resolution (the
remaining `Webhook` fields are external collaborators). -/
structure Webhook where
  SecretKey : List Nat
  deriving DecidableEq

/-- Go `Webhook.secretKey` (http.go:49-57): start from the static
`SecretKey`; if the request context carries a non-nil `[]byte` value,
that value supersedes it. -/
def Webhook.secretKey (wh : Webhook) (r : Request) : List Nat :=
  let sk := wh.SecretKey
  match r.ctxSecret with
  | some (some v) => v
  | _ => sk

/-! ### Helper lemmas about the store and tracer-world operations -/

theorem storeGet_storeDelete_self (m : List (String × Nat)) (k : String) :
    storeGet (storeDelete m k) k = none := by
  induction m with
  | nil => rfl
  | cons p rest ih =>
    obtain ⟨k', v⟩ := p
    by_cases h : k' = k <;>
      simp only [storeDelete, List.filter_cons, bne_iff_ne, ne_eq, h] at ih ⊢ <;>
      simp [storeGet, h, ih, storeDelete] at ih ⊢

theorem storeGet_storeSet_self (m : List (String × Nat)) (k : String) (v : Nat) :
    storeGet (storeSet m k v) k = some v := by
  simp [storeSet, storeGet]

theorem setTagW_get (w : TracerWorld) (i : Nat) (k : String) (v : TagValue) :
    (setTagW w i k v).get? i =
      (w.get? i).map (fun s => { s with tags := s.tags ++ [(k, v)] }) := by
  induction w generalizing i with
  | nil => simp [setTagW]
  | cons s rest ih =>
    cases i with
    | zero => simp [setTagW]
    | succ n => simpa [setTagW] using ih n

theorem finishW_get (w : TracerWorld) (i : Nat) :
    (finishW w i).get? i = (w.get? i).map (fun s => { s with finished := true }) := by
  induction w generalizing i with
  | nil => simp [finishW]
  | cons s rest ih =>
    cases i with
    | zero => simp [finishW]
    | succ n => simpa [finishW] using ih n

theorem foldl_setTagW_get (tags : List (String × TagValue)) (w : TracerWorld) (i : Nat) :
    (tags.foldl (fun w kv => setTagW w i kv.1 kv.2) w).get? i =
      (w.get? i).map (fun s => { s with tags := s.tags ++ tags }) := by
  induction tags generalizing w with
  | nil =>
    simp only [List.foldl_nil]
    cases h : w.get? i <;> simp [h]
  | cons kv rest ih =>
    simp only [List.foldl_cons]
    rw [ih, setTagW_get]
    cases h : w.get? i <;> simp [h]

theorem get?_concat_self (w : TracerWorld) (s : Span) :
    (w ++ [s]).get? w.length = some s := by
  induction w with
  | nil => rfl
  | cons t rest ih => simp [ih]

theorem length_setTagW (w : TracerWorld) (i : Nat) (k : String) (v : TagValue) :
    (setTagW w i k v).length = w.length := by
  induction w generalizing i with
  | nil => rfl
  | cons s rest ih => cases i <;> simp [setTagW, ih]

theorem length_foldl_setTagW (tags : List (String × TagValue)) (w : TracerWorld) (i : Nat) :
    (tags.foldl (fun w kv => setTagW w i kv.1 kv.2) w).length = w.length := by
  induction tags generalizing w with
  | nil => rfl
  | cons kv rest ih => simp [List.foldl_cons, ih, length_setTagW]

/-- Whenever parent resolution succeeds, the world after
`handleStartEvent` — on the success path and on every later error
path — is the old world extended with a fresh span (child of whatever
the Trace Store held for the declared parent), to which some list of
tags has been applied. -/
theorem handleStartEvent_world_shape (f : Faults) (e : Event) (σ : WebhookState)
    (parentID : Option String)
    (hp : e.ParentSpanID = .ok parentID)
    (hg : ∀ pid, parentID = some pid → f.tracesGetErr pid = none) :
    ∃ tags : List (String × TagValue),
      (handleStartEvent f e σ).1.world =
        tags.foldl (fun w kv => setTagW w (List.length σ.world) kv.1 kv.2)
          (startSpan σ.world e.OperationName
            (parentID.bind fun pid => storeGet σ.traces pid)).2 := by
  rcases parentID with _ | pid
  · simp only [handleStartEvent, hp, Option.none_bind]
    repeat' split
    all_goals first
      | exact ⟨[], rfl⟩
      | exact ⟨_, rfl⟩
  · have hg' := hg pid rfl
    simp only [handleStartEvent, hp, hg', Option.some_bind]
    repeat' split
    all_goals first
      | exact ⟨[], rfl⟩
      | exact ⟨_, rfl⟩

/-- The span freshly started by `handleStartEvent` carries the event's
operation name, the parent found in the Trace Store (if any), and is
not finished. -/
theorem handleStartEvent_world_new (f : Faults) (e : Event) (σ : WebhookState)
    (parentID : Option String)
    (hp : e.ParentSpanID = .ok parentID)
    (hg : ∀ pid, parentID = some pid → f.tracesGetErr pid = none) :
    ∃ s : Span,
      (handleStartEvent f e σ).1.world.get? (List.length σ.world) = some s ∧
      s.op = e.OperationName ∧
      s.parent = (parentID.bind fun pid => storeGet σ.traces pid) ∧
      s.finished = false := by
  obtain ⟨tags, hw⟩ := handleStartEvent_world_shape f e σ parentID hp hg
  refine ⟨{ op := e.OperationName,
            parent := parentID.bind fun pid => storeGet σ.traces pid,
            tags := tags, finished := false }, ?_, rfl, rfl, rfl⟩
  rw [hw, foldl_setTagW_get]
  simp only [startSpan]
  rw [get?_concat_self]
  simp

/-! ### Concrete inputs used by the witnesses -/

/-- Start event of the spec's first scenario: `SpanID s1`, `TraceID t1`. -/
def eStart1 : Event :=
  { State := .ok .StartState
    SpanID := .ok "s1"
    TraceID := .ok (some "t1")
    ParentSpanID := .ok none
    OperationName := "ticket.process"
    Tags := .ok [("service", .str "issues")]
    IsError := .ok false }

/-- End event matching `eStart1`. -/
def eEnd1 : Event :=
  { State := .ok .EndState
    SpanID := .ok "s1"
    TraceID := .ok (some "t1")
    ParentSpanID := .ok none
    OperationName := "ticket.process"
    Tags := .ok []
    IsError := .ok false }

/-- End event for a span that was never started. -/
def eEndUnknown : Event :=
  { State := .ok .EndState
    SpanID := .ok "s-unknown"
    TraceID := .ok none
    ParentSpanID := .ok none
    OperationName := "ticket.process"
    Tags := .ok []
    IsError := .ok false }

/-- Event whose state is outside the lifecycle model. -/
def eOther : Event :=
  { State := .ok .OtherState
    SpanID := .ok "s1"
    TraceID := .ok none
    ParentSpanID := .ok none
    OperationName := "ticket.comment"
    Tags := .ok []
    IsError := .ok false }

/-- Trace-anchoring Start event of the spec's third scenario. -/
def eStartAnchor : Event :=
  { State := .ok .StartState
    SpanID := .ok "s2"
    TraceID := .ok (some "t2")
    ParentSpanID := .ok none
    OperationName := "pipeline"
    Tags := .ok []
    IsError := .ok false }

/-- Start event declaring `ParentSpanID t2`, to be nested under the
anchor span of `eStartAnchor`. -/
def eStartChild : Event :=
  { State := .ok .StartState
    SpanID := .ok "s3"
    TraceID := .ok none
    ParentSpanID := .ok (some "t2")
    OperationName := "build"
    Tags := .ok []
    IsError := .ok false }

/-- State reached after handling `eStartAnchor` from the empty state:
span 0 is open, registered under span id `s2` and trace id `t2`. -/
def σA : WebhookState := (handleStartEvent noFaults eStartAnchor emptyState).1

/-- State with one open span, registered under `s1` and `t1`. -/
def σOpen : WebhookState :=
  { world := [{ op := "ticket.process", parent := none, tags := [], finished := false }]
    traces := [("t1", 0)]
    spans := [("s1", 0)] }

/-! ### Claims -/

/-- C1: for an End event whose `SpanID` has no entry in the Span Store,
`handleEndEvent` fails with the distinguished span-missing error carrying
the offending span identifier, and the state (both stores and the tracer
world) is returned unchanged. -/
theorem handleEndEvent_span_missing (f : Faults) (e : Event) (σ : WebhookState)
    (sid : String)
    (hsid : e.SpanID = .ok sid)
    (hget : f.spansGetErr sid = none)
    (habs : storeGet σ.spans sid = none) :
    handleEndEvent f e σ = (σ, some (.SpanMissingError sid)) := by
  simp [handleEndEvent, hsid, hget, habs]

/-- Witness for C1: ending `s-unknown` against the empty state fails
with the span-missing error and leaves the state untouched. -/
theorem handleEndEvent_span_missing_witness :
    handleEndEvent noFaults eEndUnknown emptyState =
      (emptyState, some (.SpanMissingError "s-unknown")) :=
  handleEndEvent_span_missing noFaults eEndUnknown emptyState "s-unknown" rfl rfl rfl

/-- C6: an event whose state is neither Start nor End is a silent no-op:
`handleEvent` returns no error and the state — both stores and the
tracer world — is unchanged. -/
theorem handleEvent_other_noop (f : Faults) (e : Event) (σ : WebhookState)
    (h : e.State = .ok .OtherState) :
    handleEvent f e σ = (σ, none) := by
  simp [handleEvent, h]

/-- Witness for C6 at a concrete non-lifecycle event. -/
theorem handleEvent_other_noop_witness :
    handleEvent noFaults eOther σOpen = (σOpen, none) :=
  handleEvent_other_noop noFaults eOther σOpen rfl

/-- C8: the webhook secret is resolved request-scoped value first,
static configuration second: a non-nil `[]byte` carried by the request
context is used, and otherwise the configured `SecretKey` is used. -/
theorem secretKey_resolution (wh : Webhook) (r : Request) :
    (∀ v, r.ctxSecret = some (some v) → wh.secretKey r = v) ∧
    ((∀ v, r.ctxSecret ≠ some (some v)) → wh.secretKey r = wh.SecretKey) := by
  constructor
  · intro v h
    simp [Webhook.secretKey, h]
  · intro h
    match hr : r.ctxSecret with
    | none => simp [Webhook.secretKey, hr]
    | some none => simp [Webhook.secretKey, hr]
    | some (some v) => exact absurd hr (h v)

/-- Witness for C8: a request override supersedes the static key, and a
request without one falls back to it. -/
theorem secretKey_resolution_witness :
    Webhook.secretKey ⟨[1, 2]⟩ ⟨some (some [7])⟩ = [7] ∧
    Webhook.secretKey ⟨[1, 2]⟩ ⟨none⟩ = [1, 2] :=
  ⟨(secretKey_resolution ⟨[1, 2]⟩ ⟨some (some [7])⟩).1 [7] rfl,
   (secretKey_resolution ⟨[1, 2]⟩ ⟨none⟩).2 (fun v h => by cases h)⟩

/-- Fault injection where the Trace Store `Set` on key `t1` fails and
every other operation succeeds. -/
def fTraceSetFails : Faults :=
  { noFaults with
      tracesSetErr := fun tid => if tid = "t1" then some "trace set failed" else none }

/-- C2 (failing input): handling `eStart1` — a Start event declaring
`TraceID t1` — while the Trace Store `Set` on `t1` fails: the code
discards the error returned by `Traces.Set` (http.go:154), so the
operation reports success even though the trace registration failed and
the Trace Store holds no entry for `t1`; only the Span Store entry was
written. -/
theorem handleStartEvent_traceSet_error_ignored :
    fTraceSetFails.tracesSetErr "t1" = some "trace set failed" ∧
    eStart1.TraceID = Except.ok (some "t1") ∧
    (handleStartEvent fTraceSetFails eStart1 emptyState).2 = none ∧
    storeGet (handleStartEvent fTraceSetFails eStart1 emptyState).1.traces "t1" = none ∧
    storeGet (handleStartEvent fTraceSetFails eStart1 emptyState).1.spans "s1" = some 0 := by
  refine ⟨rfl, rfl, rfl, rfl, rfl⟩

/-- C3 (failing input): the same run shows that a successful
`handleStartEvent` does not guarantee a Trace Store entry for the
declared `TraceID`: it returns success while `storeGet` on `t1` is
`none`, because the failing `Traces.Set` was ignored; the claimed
Span Store postcondition does hold. -/
theorem handleStartEvent_success_without_trace_entry :
    (handleStartEvent fTraceSetFails eStart1 emptyState).2 = none ∧
    eStart1.TraceID = Except.ok (some "t1") ∧
    storeGet (handleStartEvent fTraceSetFails eStart1 emptyState).1.spans "s1" =
      some (List.length (emptyState.world)) ∧
    storeGet (handleStartEvent fTraceSetFails eStart1 emptyState).1.traces "t1" = none := by
  refine ⟨rfl, rfl, rfl, rfl⟩

/-- Start event whose declared parent trace id was never registered. -/
def eStartOrphan : Event :=
  { State := .ok .StartState
    SpanID := .ok "s4"
    TraceID := .ok none
    ParentSpanID := .ok (some "t-missing")
    OperationName := "deploy"
    Tags := .ok []
    IsError := .ok false }

/-- End event matching `eStart1` whose `TraceID` accessor fails. -/
def eEndBadTrace : Event :=
  { State := .ok .EndState
    SpanID := .ok "s1"
    TraceID := .error "no trace id"
    ParentSpanID := .ok none
    OperationName := "ticket.process"
    Tags := .ok []
    IsError := .ok false }

/-- Start event whose `Tags` accessor fails. -/
def eStartBadTags : Event :=
  { State := .ok .StartState
    SpanID := .ok "s5"
    TraceID := .ok none
    ParentSpanID := .ok none
    OperationName := "release"
    Tags := .error "bad tags"
    IsError := .ok false }

/-- C4: for an End event whose `SpanID` is open in the Span Store (and
whose accessors and store operations function), `handleEndEvent`
succeeds, the stored span is tagged `error = IsError` and finished, the
Span Store no longer contains the `SpanID`, and when the event declares
a `TraceID` the Trace Store no longer contains it. -/
theorem handleEndEvent_success (f : Faults) (e : Event) (σ : WebhookState)
    (sid : String) (ref : Nat) (b : Bool) (tid? : Option String) (s0 : Span)
    (hsid : e.SpanID = .ok sid)
    (hget : f.spansGetErr sid = none)
    (hopen : storeGet σ.spans sid = some ref)
    (hb : e.IsError = .ok b)
    (hdel : f.spansDelErr sid = none)
    (htid : e.TraceID = .ok tid?)
    (htdel : ∀ tid, tid? = some tid → f.tracesDelErr tid = none)
    (hs0 : σ.world.get? ref = some s0) :
    (handleEndEvent f e σ).2 = none ∧
    (handleEndEvent f e σ).1.world.get? ref =
      some { s0 with tags := s0.tags ++ [("error", TagValue.bool b)], finished := true } ∧
    storeGet (handleEndEvent f e σ).1.spans sid = none ∧
    ∀ tid, tid? = some tid → storeGet (handleEndEvent f e σ).1.traces tid = none := by
  rcases tid? with _ | tid
  · simp only [handleEndEvent, hsid, hget, hopen, hb, hdel, htid]
    refine ⟨trivial, ?_, storeGet_storeDelete_self _ _, ?_⟩
    · rw [finishW_get, setTagW_get, hs0]; rfl
    · intro tid h; cases h
  · have ht := htdel tid rfl
    simp only [handleEndEvent, hsid, hget, hopen, hb, hdel, htid, ht]
    refine ⟨trivial, ?_, storeGet_storeDelete_self _ _, ?_⟩
    · rw [finishW_get, setTagW_get, hs0]; rfl
    · intro t h; cases h; exact storeGet_storeDelete_self _ _

/-- Witness for C4: closing the open span `s1` of `σOpen` succeeds,
tags and finishes span 0, and empties both stores. -/
theorem handleEndEvent_success_witness :
    (handleEndEvent noFaults eEnd1 σOpen).2 = none ∧
    (handleEndEvent noFaults eEnd1 σOpen).1.world.get? 0 =
      some { op := "ticket.process", parent := none,
             tags := [("error", TagValue.bool false)], finished := true } ∧
    storeGet (handleEndEvent noFaults eEnd1 σOpen).1.spans "s1" = none ∧
    storeGet (handleEndEvent noFaults eEnd1 σOpen).1.traces "t1" = none := by
  obtain ⟨h1, h2, h3, h4⟩ :=
    handleEndEvent_success noFaults eEnd1 σOpen "s1" 0 false (some "t1")
      { op := "ticket.process", parent := none, tags := [], finished := false }
      rfl rfl rfl rfl rfl rfl (fun tid h => rfl) rfl
  exact ⟨h1, h2, h3, h4 "t1" rfl⟩

/-- C5: a Start event declaring `ParentSpanID = X`, handled while the
Trace Store maps `X` to a span `p` (as a prior Start that registered
`TraceID = X` leaves it), starts its new span as a child of `p`. -/
theorem handleStartEvent_child_of (f : Faults) (e : Event) (σ : WebhookState)
    (x : String) (p : Nat)
    (hp : e.ParentSpanID = .ok (some x))
    (hg : f.tracesGetErr x = none)
    (hanchor : storeGet σ.traces x = some p) :
    ∃ s : Span,
      (handleStartEvent f e σ).1.world.get? (List.length σ.world) = some s ∧
      s.parent = some p := by
  obtain ⟨s, hs, _, hpar, _⟩ :=
    handleStartEvent_world_new f e σ (some x) hp (fun pid h => by cases h; exact hg)
  refine ⟨s, hs, ?_⟩
  rw [hpar]
  simp [hanchor]

/-- Witness for C5, the spec's third scenario: Start `s2` registers
trace `t2`; the later Start `s3` with parent `t2` is created child-of
span 0. -/
theorem handleStartEvent_child_of_witness :
    ∃ s : Span,
      (handleStartEvent noFaults eStartChild σA).1.world.get?
        (List.length σA.world) = some s ∧
      s.parent = some 0 :=
  handleStartEvent_child_of noFaults eStartChild σA "t2" 0 rfl rfl rfl

/-- C7: a Start event whose declared parent is absent from the Trace
Store (lookup returns `none` without error) is handled exactly as the
same event without a parent; the new span has no parent relationship. -/
theorem handleStartEvent_parent_absent (f : Faults) (e : Event) (σ : WebhookState)
    (x : String)
    (hp : e.ParentSpanID = .ok (some x))
    (hg : f.tracesGetErr x = none)
    (habs : storeGet σ.traces x = none) :
    handleStartEvent f e σ = handleStartEvent f { e with ParentSpanID := .ok none } σ ∧
    ∃ s : Span,
      (handleStartEvent f e σ).1.world.get? (List.length σ.world) = some s ∧
      s.parent = none := by
  constructor
  · simp [handleStartEvent, hp, hg, habs]
  · obtain ⟨s, hs, _, hpar, _⟩ :=
      handleStartEvent_world_new f e σ (some x) hp (fun pid h => by cases h; exact hg)
    refine ⟨s, hs, ?_⟩
    rw [hpar]
    simp [habs]

/-- Witness for C7: an orphan parent reference against the empty state
behaves as the parentless event and yields a parentless span. -/
theorem handleStartEvent_parent_absent_witness :
    handleStartEvent noFaults eStartOrphan emptyState =
      handleStartEvent noFaults { eStartOrphan with ParentSpanID := .ok none } emptyState ∧
    ∃ s : Span,
      (handleStartEvent noFaults eStartOrphan emptyState).1.world.get?
        (List.length emptyState.world) = some s ∧
      s.parent = none :=
  handleStartEvent_parent_absent noFaults eStartOrphan emptyState "t-missing" rfl rfl rfl

/-- C9: when `TraceID` resolution (or the Trace Store delete) fails
after the span was finished, `handleEndEvent` returns an error even
though the span has already been tagged, finished, and removed from the
Span Store — an error return does not mean the stores are unchanged. -/
theorem handleEndEvent_partial_on_late_failure (f : Faults) (e : Event) (σ : WebhookState)
    (sid : String) (ref : Nat) (b : Bool) (m : String) (s0 : Span)
    (hsid : e.SpanID = .ok sid)
    (hget : f.spansGetErr sid = none)
    (hopen : storeGet σ.spans sid = some ref)
    (hb : e.IsError = .ok b)
    (hdel : f.spansDelErr sid = none)
    (hfail : e.TraceID = .error m ∨
      ∃ tid, e.TraceID = .ok (some tid) ∧ f.tracesDelErr tid = some m)
    (hs0 : σ.world.get? ref = some s0) :
    (handleEndEvent f e σ).2 = some (.Err m) ∧
    (handleEndEvent f e σ).1.world.get? ref =
      some { s0 with tags := s0.tags ++ [("error", TagValue.bool b)], finished := true } ∧
    storeGet (handleEndEvent f e σ).1.spans sid = none := by
  rcases hfail with htid | ⟨tid, htid, ht⟩
  · simp only [handleEndEvent, hsid, hget, hopen, hb, hdel, htid]
    exact ⟨trivial, by rw [finishW_get, setTagW_get, hs0]; rfl,
      storeGet_storeDelete_self _ _⟩
  · simp only [handleEndEvent, hsid, hget, hopen, hb, hdel, htid, ht]
    exact ⟨trivial, by rw [finishW_get, setTagW_get, hs0]; rfl,
      storeGet_storeDelete_self _ _⟩

/-- Witness for C9: ending `s1` with a failing `TraceID` accessor
returns that error while span 0 is already finished and `s1` is gone
from the Span Store. -/
theorem handleEndEvent_partial_on_late_failure_witness :
    (handleEndEvent noFaults eEndBadTrace σOpen).2 = some (.Err "no trace id") ∧
    (handleEndEvent noFaults eEndBadTrace σOpen).1.world.get? 0 =
      some { op := "ticket.process", parent := none,
             tags := [("error", TagValue.bool false)], finished := true } ∧
    storeGet (handleEndEvent noFaults eEndBadTrace σOpen).1.spans "s1" = none :=
  handleEndEvent_partial_on_late_failure noFaults eEndBadTrace σOpen "s1" 0 false
    "no trace id" { op := "ticket.process", parent := none, tags := [], finished := false }
    rfl rfl rfl rfl rfl (Or.inl rfl) rfl

/-- C10: a Start event whose `Tags` or `TraceID` accessor fails makes
`handleStartEvent` return that error with both stores unchanged, yet a
span has already been started via the tracer — it sits unfinished in the
world and is registered in no store. -/
theorem handleStartEvent_accessor_failure (f : Faults) (e : Event) (σ : WebhookState)
    (parentID : Option String) (m : String)
    (hp : e.ParentSpanID = .ok parentID)
    (hg : ∀ pid, parentID = some pid → f.tracesGetErr pid = none)
    (hfail : e.Tags = .error m ∨
      ∃ tags, e.Tags = .ok tags ∧ e.TraceID = .error m) :
    (handleStartEvent f e σ).2 = some (.Err m) ∧
    (handleStartEvent f e σ).1.spans = σ.spans ∧
    (handleStartEvent f e σ).1.traces = σ.traces ∧
    (handleStartEvent f e σ).1.world.length = σ.world.length + 1 ∧
    ∃ s : Span,
      (handleStartEvent f e σ).1.world.get? (List.length σ.world) = some s ∧
      s.finished = false := by
  obtain ⟨tags0, hw⟩ := handleStartEvent_world_shape f e σ parentID hp hg
  have hlen : (handleStartEvent f e σ).1.world.length = σ.world.length + 1 := by
    rw [hw, length_foldl_setTagW]
    simp [startSpan]
  have hspan : ∃ s : Span,
      (handleStartEvent f e σ).1.world.get? (List.length σ.world) = some s ∧
      s.finished = false := by
    obtain ⟨s, hs, _, _, hfin⟩ := handleStartEvent_world_new f e σ parentID hp hg
    exact ⟨s, hs, hfin⟩
  have hmain : (handleStartEvent f e σ).2 = some (.Err m) ∧
      (handleStartEvent f e σ).1.spans = σ.spans ∧
      (handleStartEvent f e σ).1.traces = σ.traces := by
    rcases parentID with _ | pid
    · rcases hfail with htags | ⟨tags, htags, htid⟩
      · simp [handleStartEvent, hp, htags]
      · simp [handleStartEvent, hp, htags, htid]
    · have hg' := hg pid rfl
      rcases hfail with htags | ⟨tags, htags, htid⟩
      · simp [handleStartEvent, hp, hg', htags]
      · simp [handleStartEvent, hp, hg', htags, htid]
  exact ⟨hmain.1, hmain.2.1, hmain.2.2, hlen, hspan⟩

/-- Witness for C10: a Start event with a failing `Tags` accessor
returns the error against the empty state, leaves both stores empty, and
leaves one freshly started, unfinished, unregistered span behind. -/
theorem handleStartEvent_accessor_failure_witness :
    (handleStartEvent noFaults eStartBadTags emptyState).2 = some (.Err "bad tags") ∧
    (handleStartEvent noFaults eStartBadTags emptyState).1.spans = emptyState.spans ∧
    (handleStartEvent noFaults eStartBadTags emptyState).1.traces = emptyState.traces ∧
    (handleStartEvent noFaults eStartBadTags emptyState).1.world.length =
      emptyState.world.length + 1 ∧
    ∃ s : Span,
      (handleStartEvent noFaults eStartBadTags emptyState).1.world.get?
        (List.length emptyState.world) = some s ∧
      s.finished = false :=
  handleStartEvent_accessor_failure noFaults eStartBadTags emptyState none "bad tags"
    rfl (fun pid h => by cases h) (Or.inl rfl)

end ValueStream
